import Mathlib

/-!
Shallow embedding of the turn/session/voice orchestration layer of the
AI-Tutor chat client (frontend/src/App.js and the ChatInterface component).
JS numbers that hold whole seconds are modelled as `Int` (with `Option` for
`null`/`undefined`), JS strings as `String`, the `sessionMessages` object as
a total function `String → List Message` defaulting to `[]` (matching every
read site, which uses `|| []` or optional chaining), and React state updates
as pure state-transition functions.
-/

namespace AITutor

/-- Roles of transcript messages, from the literals used in ChatInterface
(`'user'`, `'assistant'`, `'error'`). -/
inductive Role
  | user
  | assistant
  | error
deriving DecidableEq, Repr

/-- A transcript message. The source constructs messages as
`{ role, content }` only — no other field is ever attached. -/
structure Message where
  role : Role
  content : String
deriving DecidableEq, Repr

/-- JS `String.prototype.trim()`: strip leading and trailing whitespace. -/
def jsTrim (s : String) : String :=
  String.mk ((s.data.dropWhile Char.isWhitespace).reverse.dropWhile Char.isWhitespace).reverse

/-! ### formatTime (ChatInterface, lines 50–56) -/

/-- JS `String.prototype.padStart(2, '0')`. -/
def padStart2 (s : String) : String :=
  if 2 ≤ s.length then s else String.mk (List.replicate (2 - s.length) '0') ++ s

/-- Zero-pad the decimal rendering of a natural number to width 2. -/
def pad2 (n : Nat) : String := padStart2 (Nat.repr n)

/-- `formatTime(seconds)`: `none` models a `null`/`undefined` argument
(both falsy, caught by `!seconds`); `some 0` is also falsy, and
`seconds <= 0` catches negatives. Otherwise the JS code takes
`Math.floor(seconds/3600)`, `Math.floor((seconds%3600)/60)`, `seconds%60`
and zero-pads each to two digits. -/
def formatTime : Option Int → String
  | none => "00h 00m 00s"
  | some n =>
    if n ≤ 0 then "00h 00m 00s"
    else
      let nn := n.toNat
      pad2 (nn / 3600) ++ "h " ++ pad2 ((nn % 3600) / 60) ++ "m " ++ pad2 (nn % 60) ++ "s"

/-! ### Quota countdown (ChatInterface, lines 23–25, 59–78, 302–321) -/

/-- The quota-popup slice of ChatInterface state: `showQuotaPopup`,
`retrySeconds` (a JS number or `null`/`undefined`, hence `Option Int`)
and the `countdown` display string. -/
structure QuotaState where
  showQuotaPopup : Bool
  retrySeconds : Option Int
  countdown : String
deriving DecidableEq, Repr

/-- The guard of the countdown effect (line 61):
`showQuotaPopup && retrySeconds > 0`. A `null`/`undefined` `retrySeconds`
fails the `> 0` comparison, so no interval is ever installed. -/
def timerActive (q : QuotaState) : Bool :=
  q.showQuotaPopup && (match q.retrySeconds with
    | some n => decide (0 < n)
    | none => false)

/-- One interval tick (lines 62–70): `prev <= 1` is clamped to `0`
(and the interval cleared), otherwise `prev - 1`; the display effect
(lines 76–78) re-renders the countdown from the new value. When the guard
is false no interval exists, so the state is unchanged. -/
def quotaTick (q : QuotaState) : QuotaState :=
  if timerActive q then
    let next : Int := match q.retrySeconds with
      | some n => if n ≤ 1 then 0 else n - 1
      | none => 0
    { q with retrySeconds := some next, countdown := formatTime (some next) }
  else q

/-- Activating the countdown (lines 310–312): `setRetrySeconds(seconds)`,
`setCountdown(formatTime(seconds))`, `setShowQuotaPopup(true)`. -/
def activate (secs : Option Int) (q : QuotaState) : QuotaState :=
  { q with retrySeconds := secs, countdown := formatTime secs, showQuotaPopup := true }

/-- Dismissing the popup (the overlay / Close-button `onClick`, lines 469
and 483): only `setShowQuotaPopup(false)`; `retrySeconds` is untouched. -/
def dismiss (q : QuotaState) : QuotaState :=
  { q with showQuotaPopup := false }

/-! ### The 429 payload (ChatInterface, lines 302–312) -/

/-- The `detail` field of a 429 response body as the catch-block sees it:
either a JS value whose `typeof` is not `'object'` (a bare string, a
number, …), or an object whose `retry_after_seconds` property may be
absent (`none` models reading an absent property, i.e. `undefined`).
A literal `null` detail (whose `typeof` is also `'object'`) would throw on
property access and is outside this model. -/
inductive Detail
  | nonObject (raw : String)
  | objDetail (message : Option String) (retryAfterSeconds : Option Int)
deriving DecidableEq, Repr

/-- Lines 305–307: `typeof detail === 'object' ? detail.retry_after_seconds
: 3600`. For an object the property is read as-is (possibly `undefined`);
the `3600` default applies only to non-objects. -/
def retryFromDetail : Detail → Option Int
  | .nonObject _ => some 3600
  | .objDetail _ r => r

/-! ### The remove-markdown dependency

`removeMd` is the third-party `remove-markdown` package, not code of this
repository. Only the fragment exercised here is modelled: with its default
options the library replaces inline-image markup `![alt](url)` by the alt
text, and leaves text without such markup unchanged. -/

/-- Split a character list at the first occurrence of `c`: returns the
characters before it and the characters after it, or `none` if `c` does
not occur. -/
def takeUntil (c : Char) : List Char → Option (List Char × List Char)
  | [] => none
  | x :: xs =>
    if x = c then some ([], xs)
    else (takeUntil c xs).map (fun p => (x :: p.1, p.2))

/-- Try to parse `[alt](url)` at the head of the list; on success return
the alt text and the remainder after the closing parenthesis. -/
def parseImage (l : List Char) : Option (List Char × List Char) :=
  match l with
  | [] => none
  | y :: ys =>
    if y = '[' then
      match takeUntil ']' ys with
      | none => none
      | some (alt, rest2) =>
        match rest2 with
        | [] => none
        | z :: zs =>
          if z = '(' then (takeUntil ')' zs).map (fun p => (alt, p.2))
          else none
    else none

/-- Fuel-indexed scan replacing every `![alt](url)` by `alt`. The fuel is
only a termination device; `removeMd` supplies fuel equal to the input
length, which one character of progress per step can never exhaust. -/
def removeMdAux : Nat → List Char → List Char
  | 0, l => l
  | _, [] => []
  | fuel + 1, x :: xs =>
    if x = '!' then
      match parseImage xs with
      | some p => p.1 ++ removeMdAux fuel p.2
      | none => x :: removeMdAux fuel xs
    else x :: removeMdAux fuel xs

/-- Modelled from the `remove-markdown` dependency (see section note):
image markup is replaced by its alt text, other text passes through. -/
def removeMd (s : String) : String := String.mk (removeMdAux s.data.length s.data)

/-! ### Speech playback (ChatInterface, `speakText`, lines 200–249)

`currentUtteranceRef` is the single utterance slot; `synth.cancel()` is
always issued before any new `synth.speak`, so the slot is the only
playback. The model conflates `synth.speak` with its `onstart` event
(the utterance becomes current and `isSpeaking` is set); the `onend` and
`onerror` handlers clear both, which `stopPlayback` models. -/

/-- The playback-related slice of ChatInterface state. -/
structure SpeakState where
  current : Option String
  speaking : Bool
  autoSpeak : Bool
deriving DecidableEq, Repr

/-- `speakText(text, forceSpeak, isToggle)` (lines 200–249): if an
utterance is current it is cancelled and the speaking flag cleared
(lines 204–208); a toggle call then returns (lines 213–215); otherwise
the call proceeds to the auto-speak gate (line 220), the raw-text
emptiness check (line 222), and finally starts playback of the
markup-stripped text (lines 224–248). -/
def speakText (st : SpeakState) (text : String) (forceSpeak isToggle : Bool) : SpeakState :=
  let cancelled : SpeakState :=
    if st.current.isSome then { st with current := none, speaking := false } else st
  if st.current.isSome && isToggle then cancelled
  else if !st.autoSpeak && !forceSpeak then cancelled
  else if jsTrim text = "" then cancelled
  else { cancelled with current := some (removeMd text), speaking := true }

/-- The `onend`/`onerror` handlers (lines 235–245). -/
def stopPlayback (st : SpeakState) : SpeakState :=
  { st with current := none, speaking := false }

/-! ### The turn coordinator (ChatInterface, `handleSendMessage`,
lines 251–335), component-local slice -/

/-- The ChatInterface state touched by a turn. -/
structure ChatState where
  inputValue : String
  isLoading : Bool
  isListening : Bool
  messages : List Message
deriving Repr

/-- The synchronous prefix of `handleSendMessage` (lines 251–265): the
guard `!inputValue.trim() || isLoading` returns with no state change;
otherwise capture is stopped, the user message (with the untrimmed input
as content) is appended, the input buffer is cleared and `isLoading`
set. -/
def submitStart (s : ChatState) : ChatState :=
  if jsTrim s.inputValue = "" ∨ s.isLoading = true then s
  else
    { s with
      isListening := false
      messages := s.messages ++ [⟨Role.user, s.inputValue⟩]
      inputValue := ""
      isLoading := true }

/-- The backend chat response body (`response.data`). -/
structure BackendResponse where
  answer : String
  emotion : Option String
  sessionId : Option String
deriving DecidableEq, Repr

/-- JS truthiness of an optional string: `undefined` and `''` are falsy. -/
def truthyStr : Option String → Option String
  | some e => if e = "" then none else some e
  | none => none

/-- The success branch (lines 274–297) applied to the in-flight state:
the assistant message is built as `{ role: 'assistant', content: answer }`
— no other field — and appended; `onEmotionChange` fires only when
`response.data.emotion` is truthy (the second component is the emotion
event delivered to the avatar, `none` when the callback is not invoked);
the `finally` clears `isLoading`. -/
def resolveSuccess (s : ChatState) (r : BackendResponse) : ChatState × Option String :=
  ({ s with
      messages := s.messages ++ [⟨Role.assistant, r.answer⟩]
      isLoading := false },
   truthyStr r.emotion)

/-- The 429 branch (lines 302–321): the retry delay is computed from the
`detail` payload, the countdown is activated, an error-role message is
appended, and the `finally` clears `isLoading`. -/
def resolveRateLimit (s : ChatState) (q : QuotaState) (d : Detail) : ChatState × QuotaState :=
  ({ s with
      messages := s.messages ++ [⟨Role.error, "⚠️ API limit reached. Check the popup for details."⟩]
      isLoading := false },
   activate (retryFromDetail d) q)

/-- Any other failure (lines 322–329): a generic error-role message is
appended and the `finally` clears `isLoading`. -/
def resolveOtherError (s : ChatState) : ChatState :=
  { s with
      messages := s.messages ++ [⟨Role.error, "Failed to get response. Please try again."⟩]
      isLoading := false }

/-! ### Session store (App.js)

The `sessionMessages` object is modelled as a total function
`String → List Message`: every read site in the source defaults an absent
key to an empty value (`sessionMessages[sessionId] || []` on line 250,
optional chaining on line 64), so a deleted key and a key mapped to `[]`
are indistinguishable to the program. Reading `obj[sessionId]` with a
`null` session id uses the JS key string `"null"`. -/

/-- The JS property key used for the current session id. -/
def keyOf : Option String → String
  | some s => s
  | none => "null"

/-- A catalog entry (App.js lines 67–72). -/
structure SessionSummary where
  id : String
  timestamp : String
  messageCount : Nat
  preview : String
deriving DecidableEq, Repr

/-- The App-level state: current session id, the per-session transcripts,
the catalog (`sessions`), and the history of catalog blobs written to
local storage by the persistence effect (most recent first). -/
structure AppState where
  sessionId : Option String
  sessionMessages : String → List Message
  sessions : List SessionSummary
  storedWrites : List (List SessionSummary)

/-- `updateSessionMessages` (App.js lines 117–122): write the given list
under the current session id's key. -/
def updateSessionMessages (a : AppState) (newMessages : List Message) : AppState :=
  { a with
      sessionMessages := fun k =>
        if k = keyOf a.sessionId then newMessages else a.sessionMessages k }

/-- The sessions persistence effect (App.js lines 52–61): when the catalog
is non-empty, the entries with a positive `messageCount` are filtered out
and, if any remain, written to local storage. -/
def persistSessions (a : AppState) : AppState :=
  if 0 < a.sessions.length then
    let valid := a.sessions.filter (fun s => 0 < s.messageCount)
    if 0 < valid.length then { a with storedWrites := valid :: a.storedWrites } else a
  else a

/-- `sessionMessages[sessionId][0]?.content.substring(0,50)+'...'`
(App.js line 71). -/
def previewOf (msgs : List Message) : String :=
  (match msgs.head? with
   | some m => m.content.take 50
   | none => "undefined") ++ "..."

/-- The archiving step of `handleNewSession` (App.js lines 64–75), with
the render closure it reads made explicit: the truthiness/non-empty
guard, the `find?` duplicate check and the archived entry are all
computed from the closure state `c` (the values of `sessionId`,
`sessionMessages` and `sessions` captured by the render that created the
handler), while the functional `setSessions(prev => [newSession,
...prev])` update prepends to the live catalog of `a`. For a top-level
`handleNewSession` call the two coincide; for the nested call inside
`handleDeleteSession` the closure is the stale pre-delete render state. -/
def archiveFrom (c a : AppState) (now : String) : AppState :=
  match c.sessionId with
  | none => a
  | some sid =>
    if sid = "" then a
    else if 0 < (c.sessionMessages sid).length then
      if (c.sessions.find? (fun s => s.id == sid)).isNone then
        { a with
            sessions :=
              ⟨sid, now, (c.sessionMessages sid).length,
                previewOf (c.sessionMessages sid)⟩ :: a.sessions }
      else a
    else a

/-- `handleNewSession` as invoked with render closure `c` over live state
`a`: archive per the closure, then make a fresh id (`newId`, generated
from the clock and `Math.random` in the source) current. -/
def handleNewSessionFrom (c a : AppState) (newId now : String) : AppState :=
  { archiveFrom c a now with sessionId := some newId }

/-- `handleNewSession` (App.js lines 63–87) invoked at top level, where
the render closure and the live state coincide. -/
def handleNewSession (a : AppState) (newId : String) (now : String) : AppState :=
  handleNewSessionFrom a a newId now

/-- `handleLoadSession` (App.js lines 88–98): the chosen id becomes
current; the catalog and transcripts are untouched. -/
def handleLoadSession (a : AppState) (loadId : String) : AppState :=
  { a with sessionId := some loadId }

/-- `handleDeleteSession` (App.js lines 100–115): every catalog entry
with the given id is filtered out and the transcript discarded; if the
deleted session was current, the nested `handleNewSession()` call runs —
but being a closure of the same render it reads the pre-delete
`sessionId`, `sessionMessages` and `sessions` (the `setSessions` /
`setSessionMessages` calls issued just before it are only queued
functional updates), while its own `setSessions` update applies on top of
the filtered catalog. Deleting a current, not-yet-archived session with
a non-empty transcript therefore re-archives it. -/
def handleDeleteSession (a : AppState) (delId newId now : String) : AppState :=
  let afterDelete : AppState :=
    { a with
        sessions := a.sessions.filter (fun s => s.id ≠ delId)
        sessionMessages := fun k => if k = delId then [] else a.sessionMessages k }
  if a.sessionId = some delId then handleNewSessionFrom a afterDelete newId now
  else afterDelete

/-! ### A turn at App level (ChatInterface lines 261–297 through the
`setMessages` prop)

The in-flight request's continuation closes over the dispatch-time props:
`setMessages` is the `updateSessionMessages` closure created in the App
render current at dispatch, which captures the dispatch-time `sessionId`,
and `newMessages` is the dispatch-time transcript plus the user message.
Switching sessions remounts ChatInterface (the `key={sessionId}` prop)
but does not cancel the request; its resolution still runs the captured
closure. -/

/-- The data captured by an in-flight request. -/
structure PendingTurn where
  key : String
  baseMessages : List Message
deriving Repr

/-- Dispatch (lines 261–265 as seen through the store): the user message
is written under the dispatch-time key immediately, and the closure data
is captured. -/
def dispatchTurn (a : AppState) (input : String) : AppState × PendingTurn :=
  let key := keyOf a.sessionId
  let base := a.sessionMessages key ++ [⟨Role.user, input⟩]
  ({ a with sessionMessages := fun k => if k = key then base else a.sessionMessages k },
   ⟨key, base⟩)

/-- Resolution of a successful response (line 275 through the captured
`setMessages`): `[...newMessages, aiMessage]` is written under the
captured dispatch-time key, whatever session is current by now. -/
def resolveTurn (a : AppState) (p : PendingTurn) (answer : String) : AppState :=
  { a with
      sessionMessages := fun k =>
        if k = p.key then p.baseMessages ++ [⟨Role.assistant, answer⟩]
        else a.sessionMessages k }

/-! ### Reachable App states

The initial state is the mount-time load effect (App.js lines 20–45): the
saved id and transcripts are adopted as read, and the saved catalog `raw`
is filtered to entries with a positive `messageCount`. Each step is one
of the session-store operations, with the persistence effect running
after the operations that change the catalog. -/

/-- States reachable from a mount that read the catalog blob `raw`. -/
inductive ReachableFrom (raw : List SessionSummary) : AppState → Prop
  | init (saved : Option String) (store0 : String → List Message) :
      ReachableFrom raw
        ⟨saved, store0, raw.filter (fun s => 0 < s.messageCount), []⟩
  | newSession {a : AppState} (newId now : String) :
      ReachableFrom raw a →
      ReachableFrom raw (persistSessions (handleNewSession a newId now))
  | loadSession {a : AppState} (loadId : String) :
      ReachableFrom raw a → ReachableFrom raw (handleLoadSession a loadId)
  | deleteSession {a : AppState} (delId newId now : String) :
      ReachableFrom raw a →
      ReachableFrom raw (persistSessions (handleDeleteSession a delId newId now))
  | updateMessages {a : AppState} (msgs : List Message) :
      ReachableFrom raw a → ReachableFrom raw (updateSessionMessages a msgs)
  | turnDispatch {a : AppState} (input : String) :
      ReachableFrom raw a → ReachableFrom raw (dispatchTurn a input).1
  | turnResolve {a : AppState} (p : PendingTurn) (answer : String) :
      ReachableFrom raw a → ReachableFrom raw (resolveTurn a p answer)

/-- Every entry of a catalog blob has at least one message. -/
def catalogOk (l : List SessionSummary) : Prop :=
  ∀ e ∈ l, 1 ≤ e.messageCount

/-- The session ids of a catalog blob are pairwise distinct. -/
def idsNodup (l : List SessionSummary) : Prop :=
  (l.map (fun s => s.id)).Nodup

/-- A concrete run for the stale-response scenario: dispatch in session
`"A"`, then switch to `"B"` before the response resolves. -/
def staleBase : AppState := ⟨some "A", fun _ => [], [], []⟩

/-- The dispatch of `"hi"` from `staleBase`. -/
def staleDispatch : AppState × PendingTurn := dispatchTurn staleBase "hi"

/-- The state after the user switches to session `"B"` mid-flight. -/
def staleSwitched : AppState := handleLoadSession staleDispatch.1 "B"

/-- The state after the late response `"ans"` resolves. -/
def staleResolved : AppState := resolveTurn staleSwitched staleDispatch.2 "ans"

/-- A concrete run for the delete-current scenario: a fresh mount, load
of session `"A"`, one user message — `"A"` is current, non-empty and not
yet archived. -/
def deleteRunPre : AppState :=
  updateSessionMessages (handleLoadSession ⟨none, fun _ => [], [], []⟩ "A")
    [⟨Role.user, "hi"⟩]

/-- Deleting the current, not-yet-archived session `"A"` from that
state, with the persistence effect. -/
def deleteRunPost : AppState :=
  persistSessions (handleDeleteSession deleteRunPre "A" "N" "t")

/-! ## Claim theorems -/

/-- C9: `formatTime` is total and clamps at zero — `null`/`undefined`,
zero and negative inputs all render as `"00h 00m 00s"`, and every
positive number of seconds renders as the zero-padded hours/minutes/
seconds decomposition of its value. -/
theorem formatTime_total_clamp :
    formatTime none = "00h 00m 00s" ∧
    (∀ n : Int, n ≤ 0 → formatTime (some n) = "00h 00m 00s") ∧
    (∀ n : Int, 0 < n → ∃ h m s : Nat,
      n = 3600 * (h : Int) + 60 * (m : Int) + (s : Int) ∧ m < 60 ∧ s < 60 ∧
      formatTime (some n) = pad2 h ++ "h " ++ pad2 m ++ "m " ++ pad2 s ++ "s") := by
  refine ⟨rfl, ?_, ?_⟩
  · intro n hn
    simp only [formatTime]
    rw [if_pos hn]
  · intro n hn
    refine ⟨n.toNat / 3600, n.toNat % 3600 / 60, n.toNat % 60, ?_, ?_, ?_, ?_⟩
    · omega
    · omega
    · omega
    · simp only [formatTime]
      rw [if_neg (by omega)]

/-- Witness for C9 at the inputs −7, 0 and 3725. -/
theorem formatTime_total_clamp_witness :
    formatTime (some (-7)) = "00h 00m 00s" ∧
    formatTime (some 0) = "00h 00m 00s" ∧
    ∃ h m s : Nat,
      (3725 : Int) = 3600 * (h : Int) + 60 * (m : Int) + (s : Int) ∧ m < 60 ∧ s < 60 ∧
      formatTime (some 3725) = pad2 h ++ "h " ++ pad2 m ++ "m " ++ pad2 s ++ "s" :=
  ⟨formatTime_total_clamp.2.1 (-7) (by decide),
   formatTime_total_clamp.2.1 0 (by decide),
   formatTime_total_clamp.2.2 3725 (by decide)⟩

/-- C3: the countdown activated with 3725 remaining seconds displays
exactly `"01h 02m 05s"`; each tick decrements the remaining seconds by
one and keeps the popup visible; at zero the timer guard is off and the
state frozen (never negative, displaying `"00h 00m 00s"`); only `dismiss`
hides the popup, and ticking never does. -/
theorem quota_countdown_spec :
    (∀ q : QuotaState,
      (activate (some 3725) q).countdown = "01h 02m 05s" ∧
      (activate (some 3725) q).showQuotaPopup = true) ∧
    (∀ (q : QuotaState) (n : Int), q.retrySeconds = some n → 1 ≤ n →
      timerActive q = true →
      (quotaTick q).retrySeconds = some (n - 1) ∧
      (quotaTick q).showQuotaPopup = q.showQuotaPopup) ∧
    (∀ q : QuotaState, q.retrySeconds = some 0 →
      timerActive q = false ∧ quotaTick q = q) ∧
    (∀ (q : QuotaState) (n m : Int), q.retrySeconds = some n → 0 ≤ n →
      (quotaTick q).retrySeconds = some m → 0 ≤ m) ∧
    formatTime (some 0) = "00h 00m 00s" ∧
    (∀ q : QuotaState, (quotaTick q).showQuotaPopup = q.showQuotaPopup) ∧
    (∀ q : QuotaState, (dismiss q).showQuotaPopup = false ∧
      (dismiss q).retrySeconds = q.retrySeconds) := by
  have tick_popup : ∀ q : QuotaState, (quotaTick q).showQuotaPopup = q.showQuotaPopup := by
    intro q
    unfold quotaTick
    split <;> rfl
  refine ⟨?_, ?_, ?_, ?_, rfl, tick_popup, fun q => ⟨rfl, rfl⟩⟩
  · intro q
    exact ⟨(by decide : formatTime (some 3725) = "01h 02m 05s"), rfl⟩
  · intro q n hq hn ha
    refine ⟨?_, tick_popup q⟩
    unfold quotaTick
    rw [if_pos ha, hq]
    have : (if n ≤ 1 then (0 : Int) else n - 1) = n - 1 := by
      split <;> omega
    simp [this]
  · intro q hq
    have ht : timerActive q = false := by
      unfold timerActive
      rw [hq]
      simp
    refine ⟨ht, ?_⟩
    unfold quotaTick
    rw [ht]
    simp
  · intro q n m hq hn hm
    unfold quotaTick at hm
    by_cases ha : timerActive q = true
    · rw [if_pos ha, hq] at hm
      simp only [Option.some.injEq] at hm
      split at hm <;> omega
    · rw [if_neg ha] at hm
      rw [hq] at hm
      simp only [Option.some.injEq] at hm
      omega

/-- Witness for C3: activation at 3725, one tick from 5 and from 1,
inactivity at 0. -/
theorem quota_countdown_spec_witness :
    (activate (some 3725) ⟨false, none, ""⟩).countdown = "01h 02m 05s" ∧
    (quotaTick ⟨true, some 5, "00h 00m 05s"⟩).retrySeconds = some 4 ∧
    (quotaTick ⟨true, some 1, "00h 00m 01s"⟩).retrySeconds = some 0 ∧
    timerActive ⟨true, some 0, "00h 00m 00s"⟩ = false :=
  ⟨(quota_countdown_spec.1 ⟨false, none, ""⟩).1,
   (quota_countdown_spec.2.1 ⟨true, some 5, "00h 00m 05s"⟩ 5 rfl (by decide) (by decide)).1,
   (quota_countdown_spec.2.1 ⟨true, some 1, "00h 00m 01s"⟩ 1 rfl (by decide) (by decide)).1,
   (quota_countdown_spec.2.2.1 ⟨true, some 0, "00h 00m 00s"⟩ rfl).1⟩

/-- C1: a submit with whitespace-only input or with a send in flight is
ignored with no state change; otherwise exactly one transition to the
Sending state occurs — user message appended, input cleared, `isLoading`
set — a re-entrant submit on the Sending state is the identity, and
either resolution clears `isLoading` again. -/
theorem submit_guard_and_transition (s : ChatState) :
    ((jsTrim s.inputValue = "" ∨ s.isLoading = true) → submitStart s = s) ∧
    (jsTrim s.inputValue ≠ "" → s.isLoading = false →
      (submitStart s).isLoading = true ∧
      (submitStart s).messages = s.messages ++ [⟨Role.user, s.inputValue⟩] ∧
      (submitStart s).inputValue = "" ∧
      submitStart (submitStart s) = submitStart s ∧
      (∀ r, (resolveSuccess (submitStart s) r).1.isLoading = false) ∧
      (resolveOtherError (submitStart s)).isLoading = false) := by
  constructor
  · intro h
    unfold submitStart
    rw [if_pos h]
  · intro h1 h2
    have hcond : ¬(jsTrim s.inputValue = "" ∨ s.isLoading = true) := by
      simp [h1, h2]
    unfold submitStart
    rw [if_neg hcond]
    refine ⟨rfl, rfl, rfl, ?_, fun r => rfl, rfl⟩
    rw [if_pos (Or.inr rfl)]

/-- Witness for C1 at an Idle state with input `"hi"`. -/
theorem submit_guard_and_transition_witness :
    (submitStart ⟨"hi", false, false, []⟩).isLoading = true ∧
    (submitStart ⟨"hi", false, false, []⟩).messages = [⟨Role.user, "hi"⟩] ∧
    submitStart ⟨" ", false, false, []⟩ = ⟨" ", false, false, []⟩ :=
  ⟨((submit_guard_and_transition ⟨"hi", false, false, []⟩).2 (by decide) rfl).1,
   ((submit_guard_and_transition ⟨"hi", false, false, []⟩).2 (by decide) rfl).2.1,
   (submit_guard_and_transition ⟨" ", false, false, []⟩).1 (Or.inl (by decide))⟩

/-- C5 counterexample: for a successful response whose `emotion` field is
absent, the appended assistant message is `{ role, content }` only and the
emotion channel emits nothing — in particular not `"neutral"`, contrary
to the claimed default. -/
theorem success_no_emotion_counterexample :
    (resolveSuccess ⟨"", true, false, [⟨Role.user, "q"⟩]⟩ ⟨"ans", none, none⟩).2 = none ∧
    (resolveSuccess ⟨"", true, false, [⟨Role.user, "q"⟩]⟩ ⟨"ans", none, none⟩).2 ≠ some "neutral" ∧
    (resolveSuccess ⟨"", true, false, [⟨Role.user, "q"⟩]⟩ ⟨"ans", none, none⟩).1.messages
      = [⟨Role.user, "q"⟩, ⟨Role.assistant, "ans"⟩] := by
  decide

/-- C5 amended: on success the appended assistant message consists of the
role and the answer only (messages carry no emotion field); the
response's emotion, when present and non-empty, is forwarded to the
avatar callback, and when absent or empty no emotion event is emitted
(there is no `"neutral"` default). -/
theorem success_emotion_forwarding (s : ChatState) (r : BackendResponse) :
    (resolveSuccess s r).1.messages = s.messages ++ [⟨Role.assistant, r.answer⟩] ∧
    (resolveSuccess s r).1.isLoading = false ∧
    (∀ e, r.emotion = some e → e ≠ "" → (resolveSuccess s r).2 = some e) ∧
    (r.emotion = none ∨ r.emotion = some "" → (resolveSuccess s r).2 = none) := by
  refine ⟨rfl, rfl, ?_, ?_⟩
  · intro e he hne
    simp [resolveSuccess, truthyStr, he, hne]
  · intro hc
    rcases hc with hc | hc <;> simp [resolveSuccess, truthyStr, hc]

/-- Witness for C5 amended: a response carrying emotion `"happy"`. -/
theorem success_emotion_forwarding_witness :
    (resolveSuccess ⟨"", true, false, []⟩ ⟨"a", some "happy", none⟩).2 = some "happy" :=
  (success_emotion_forwarding ⟨"", true, false, []⟩ ⟨"a", some "happy", none⟩).2.2.1
    "happy" rfl (by decide)

/-- C6 counterexample: a 429 whose `detail` payload is an object lacking
`retry_after_seconds` activates the countdown with `undefined` — not with
the claimed 3600-second default: the popup shows `"00h 00m 00s"` and the
timer never runs. -/
theorem rate_limit_default_counterexample :
    retryFromDetail (.objDetail (some "Rate limit exceeded") none) = none ∧
    retryFromDetail (.objDetail (some "Rate limit exceeded") none) ≠ some 3600 ∧
    (resolveRateLimit ⟨"", true, false, []⟩ ⟨false, none, ""⟩
        (.objDetail (some "Rate limit exceeded") none)).2
      = ⟨true, none, "00h 00m 00s"⟩ ∧
    timerActive (resolveRateLimit ⟨"", true, false, []⟩ ⟨false, none, ""⟩
        (.objDetail (some "Rate limit exceeded") none)).2 = false := by
  decide

/-- C6 amended: the 3600-second default applies exactly when the `detail`
payload is not an object (e.g. a bare string); for an object payload the
`retry_after_seconds` property is used as-is, so an object lacking it
activates the countdown with an undefined remaining time, displayed as
`"00h 00m 00s"` with the tick guard off; in all cases the popup is shown,
an error-role message is appended and `isLoading` is cleared. -/
theorem rate_limit_retry_semantics (s : ChatState) (q : QuotaState) (d : Detail) :
    (∀ raw, d = .nonObject raw →
      (resolveRateLimit s q d).2.retrySeconds = some 3600) ∧
    (∀ msg r, d = .objDetail msg r → (resolveRateLimit s q d).2.retrySeconds = r) ∧
    (∀ msg, d = .objDetail msg none →
      (resolveRateLimit s q d).2.countdown = "00h 00m 00s" ∧
      timerActive (resolveRateLimit s q d).2 = false) ∧
    (resolveRateLimit s q d).2.showQuotaPopup = true ∧
    (resolveRateLimit s q d).1.messages
      = s.messages ++ [⟨Role.error, "⚠️ API limit reached. Check the popup for details."⟩] ∧
    (resolveRateLimit s q d).1.isLoading = false := by
  refine ⟨?_, ?_, ?_, rfl, rfl, rfl⟩
  · intro raw hd
    subst hd
    rfl
  · intro msg r hd
    subst hd
    rfl
  · intro msg hd
    subst hd
    exact ⟨rfl, rfl⟩

/-- Witness for C6 amended: a bare-string payload yields the 3600
default; an object payload without the field yields no remaining time. -/
theorem rate_limit_retry_semantics_witness :
    (resolveRateLimit ⟨"", true, false, []⟩ ⟨false, none, ""⟩
        (.nonObject "quota exhausted")).2.retrySeconds = some 3600 ∧
    (resolveRateLimit ⟨"", true, false, []⟩ ⟨false, none, ""⟩
        (.objDetail (some "m") none)).2.retrySeconds = none :=
  ⟨(rate_limit_retry_semantics ⟨"", true, false, []⟩ ⟨false, none, ""⟩
      (.nonObject "quota exhausted")).1 "quota exhausted" rfl,
   (rate_limit_retry_semantics ⟨"", true, false, []⟩ ⟨false, none, ""⟩
      (.objDetail (some "m") none)).2.1 (some "m") none rfl⟩

/-- C2 counterexample: a non-toggle call to `speakText` while a playback
is in progress does not always start a new playback — with empty text the
old playback is cancelled and nothing new starts, even with auto-speak
enabled. -/
theorem speak_nontoggle_counterexample :
    ((⟨some "old", true, true⟩ : SpeakState).current.isSome = true) ∧
    speakText ⟨some "old", true, true⟩ "" false false = ⟨none, false, true⟩ := by
  decide

/-- C2 amended: while a playback is in progress, every call first cancels
it and clears the speaking flag; a toggle call stops there; a non-toggle
call starts a new playback of the markup-stripped text provided the
auto-speak/forced gate passes and the text is non-empty after trimming,
and otherwise only the cancellation occurs. The single utterance slot
means at most one playback is active at any time. -/
theorem speak_interrupt_policy (st : SpeakState) (text : String) (forceSpeak isToggle : Bool)
    (hcur : st.current.isSome = true) :
    (isToggle = true →
      speakText st text forceSpeak isToggle = { st with current := none, speaking := false }) ∧
    ((st.autoSpeak || forceSpeak) = true → isToggle = false → jsTrim text ≠ "" →
      (speakText st text forceSpeak isToggle).current = some (removeMd text) ∧
      (speakText st text forceSpeak isToggle).speaking = true) ∧
    (isToggle = false → ((st.autoSpeak || forceSpeak) = false ∨ jsTrim text = "") →
      speakText st text forceSpeak isToggle = { st with current := none, speaking := false }) := by
  obtain ⟨cur, sp, asp⟩ := st
  cases cur with
  | none => simp at hcur
  | some u =>
    refine ⟨?_, ?_, ?_⟩
    · intro ht
      subst ht
      simp [speakText]
    · intro hg ht hne
      subst ht
      have hgate : (!asp && !forceSpeak) = false := by
        rw [← Bool.not_or, hg]
        rfl
      simp [speakText, hgate, hne]
    · intro ht hcase
      subst ht
      rcases hcase with hg | htr
      · have h1 : asp = false := by
          cases asp <;> simp_all
        have h2 : forceSpeak = false := by
          cases forceSpeak <;> simp_all
        subst h1
        subst h2
        simp [speakText]
      · by_cases hgate : (!asp && !forceSpeak) = true
        · simp [speakText, hgate]
        · simp only [Bool.not_eq_true] at hgate
          simp [speakText, hgate, htr]

/-- Witness for C2 amended: a toggle while speaking only cancels; a
forced non-toggle while speaking starts the new text. -/
theorem speak_interrupt_policy_witness :
    speakText ⟨some "old", true, false⟩ "next" true true = ⟨none, false, false⟩ ∧
    (speakText ⟨some "old", true, true⟩ "next" true false).current = some (removeMd "next") ∧
    (speakText ⟨some "old", true, true⟩ "next" true false).speaking = true :=
  ⟨(speak_interrupt_policy ⟨some "old", true, false⟩ "next" true true rfl).1 rfl,
   ((speak_interrupt_policy ⟨some "old", true, true⟩ "next" true false rfl).2.1
      (by decide) rfl (by decide)).1,
   ((speak_interrupt_policy ⟨some "old", true, true⟩ "next" true false rfl).2.1
      (by decide) rfl (by decide)).2⟩

/-- C7 counterexample: the emptiness check runs on the raw text before
markup is stripped, so an input that is pure image markup — whose
stripped form is empty — still starts a playback (of the empty string):
with `"![](x)"` the stripped text is `""` yet `speakText` sets a current
utterance and the speaking flag. -/
theorem speak_stripped_empty_counterexample :
    removeMd "![](x)" = "" ∧
    jsTrim "![](x)" ≠ "" ∧
    speakText ⟨none, false, true⟩ "![](x)" true false = ⟨some "", true, true⟩ := by
  decide

/-- C7 amended: when the call is not satisfied by cancellation, nothing is
spoken if auto-speak is disabled and the call is not forced; the
emptiness check is applied to the raw text before stripping — a raw text
that trims to empty starts no playback, and otherwise a playback of the
markup-stripped text starts even if the stripped text is empty. The
hypothesis `hwf` is the lifecycle invariant that the speaking flag is only
set while an utterance is current. -/
theorem speak_gating (st : SpeakState) (text : String) (forceSpeak isToggle : Bool)
    (hwf : st.speaking = true → st.current.isSome = true) :
    (st.autoSpeak = false → forceSpeak = false →
      (speakText st text forceSpeak isToggle).current = none ∧
      (speakText st text forceSpeak isToggle).speaking = false) ∧
    (jsTrim text = "" →
      (speakText st text forceSpeak isToggle).current = none ∧
      (speakText st text forceSpeak isToggle).speaking = false) ∧
    (¬(st.current.isSome = true ∧ isToggle = true) → (st.autoSpeak || forceSpeak) = true →
      jsTrim text ≠ "" →
      (speakText st text forceSpeak isToggle).current = some (removeMd text) ∧
      (speakText st text forceSpeak isToggle).speaking = true) := by
  obtain ⟨cur, sp, asp⟩ := st
  refine ⟨?_, ?_, ?_⟩
  · intro h1 h2
    subst h1
    subst h2
    cases cur with
    | none =>
      have hsp : sp = false := by
        cases sp
        · rfl
        · simpa using hwf rfl
      subst hsp
      cases isToggle <;> simp [speakText]
    | some u =>
      cases isToggle <;> simp [speakText]
  · intro htr
    cases cur with
    | none =>
      have hsp : sp = false := by
        cases sp
        · rfl
        · simpa using hwf rfl
      subst hsp
      cases isToggle <;> cases asp <;> cases forceSpeak <;> simp [speakText, htr]
    | some u =>
      cases isToggle <;> cases asp <;> cases forceSpeak <;> simp [speakText, htr]
  · intro hnt hg hne
    have hgate : (!asp && !forceSpeak) = false := by
      rw [← Bool.not_or, hg]
      rfl
    cases cur with
    | none =>
      cases isToggle <;> simp [speakText, hgate, hne]
    | some u =>
      have ht : isToggle = false := by
        rcases isToggle with _ | _
        · rfl
        · exact absurd ⟨rfl, rfl⟩ hnt
      subst ht
      simp [speakText, hgate, hne]

/-- Witness for C7 amended: with auto-speak off and no force nothing is
spoken; whitespace input starts nothing; a forced call speaks the
stripped text. -/
theorem speak_gating_witness :
    (speakText ⟨none, false, false⟩ "hello" false false).current = none ∧
    (speakText ⟨none, false, true⟩ "   " true false).current = none ∧
    (speakText ⟨none, false, true⟩ "hello" true false).current = some (removeMd "hello") :=
  ⟨((speak_gating ⟨none, false, false⟩ "hello" false false (by decide)).1 rfl rfl).1,
   ((speak_gating ⟨none, false, true⟩ "   " true false (by decide)).2.1 (by decide)).1,
   ((speak_gating ⟨none, false, true⟩ "hello" true false (by decide)).2.2
      (by decide) (by decide) (by decide)).1⟩

/-- C4 counterexample: the response resolving after the switch is not
discarded — it is appended under the dispatch-time session `"A"` (the
transcript for `"A"` changes), while the newly current session `"B"`
stays untouched. -/
theorem stale_response_appended_counterexample :
    staleSwitched.sessionId = some "B" ∧
    staleDispatch.2.key = "A" ∧
    staleResolved.sessionMessages "A"
      = [⟨Role.user, "hi"⟩, ⟨Role.assistant, "ans"⟩] ∧
    staleResolved.sessionMessages "A" ≠ staleSwitched.sessionMessages "A" ∧
    staleResolved.sessionMessages "B" = staleSwitched.sessionMessages "B" := by
  decide

/-- C4 amended: a late response is not discarded; it is appended under the
session key captured at dispatch (the session current when the request
was sent), and every other session's transcript — in particular the newly
current one after a switch — is left unchanged; the current session id
itself is not altered by resolution. -/
theorem resolve_writes_only_dispatch_key (a : AppState) (p : PendingTurn) (answer : String) :
    (resolveTurn a p answer).sessionMessages p.key
      = p.baseMessages ++ [⟨Role.assistant, answer⟩] ∧
    (∀ k, k ≠ p.key → (resolveTurn a p answer).sessionMessages k = a.sessionMessages k) ∧
    (∀ (a0 : AppState) (input : String), (dispatchTurn a0 input).2.key = keyOf a0.sessionId) ∧
    (resolveTurn a p answer).sessionId = a.sessionId := by
  refine ⟨by simp [resolveTurn], ?_, fun a0 input => rfl, rfl⟩
  intro k hk
  simp [resolveTurn, hk]

/-- Witness for C4 amended: at the concrete stale-run states, session
`"B"` is untouched by the resolution. -/
theorem resolve_writes_only_dispatch_key_witness :
    staleResolved.sessionMessages "B" = staleSwitched.sessionMessages "B" :=
  (resolve_writes_only_dispatch_key staleSwitched staleDispatch.2 "ans").2.1 "B" (by decide)

/-! Helper lemmas for the catalog invariants. -/

/-- Filtering on a positive message count yields entries of count ≥ 1. -/
theorem catalogOk_filterCount (l : List SessionSummary) :
    catalogOk (l.filter (fun s => 0 < s.messageCount)) := by
  intro e he
  simp only [List.mem_filter, decide_eq_true_eq] at he
  omega

/-- Filtering preserves `catalogOk`. -/
theorem catalogOk_filter {l : List SessionSummary} (p : SessionSummary → Bool)
    (h : catalogOk l) : catalogOk (l.filter p) := by
  intro e he
  exact h e (List.mem_filter.1 he).1

/-- Filtering preserves distinctness of the ids. -/
theorem idsNodup_filter {l : List SessionSummary} (p : SessionSummary → Bool)
    (h : idsNodup l) : idsNodup (l.filter p) :=
  List.Nodup.sublist (List.Sublist.map _ (List.filter_sublist l)) h

/-- When `find?` misses an id, that id is not among the catalog's ids. -/
theorem find_none_not_mem {l : List SessionSummary} {sid : String}
    (h : (l.find? (fun s => s.id == sid)).isNone = true) :
    sid ∉ l.map (fun s => s.id) := by
  rw [Option.isNone_iff_eq_none, List.find?_eq_none] at h
  intro hmem
  rcases List.mem_map.1 hmem with ⟨x, hx, hxid⟩
  exact absurd (by simpa using hxid) (by simpa using h x hx)

/-- Archiving preserves `catalogOk`: an entry is inserted only when the
closure's transcript is non-empty, and its `messageCount` is that
length. -/
theorem archiveFrom_catalogOk {c a : AppState} (h : catalogOk a.sessions) (now : String) :
    catalogOk (archiveFrom c a now).sessions := by
  unfold archiveFrom
  cases hsid : c.sessionId with
  | none => exact h
  | some sid =>
    dsimp only
    split_ifs with h0 h1 h2
    · exact h
    · intro e he
      rcases List.mem_cons.1 he with rfl | he2
      · simpa using h1
      · exact h e he2
    · exact h
    · exact h

/-- Archiving preserves distinct ids provided the inserted id (admitted
by the closure's `find?` check) is absent from the live catalog. -/
theorem archiveFrom_idsNodup {c a : AppState} (now : String) (h : idsNodup a.sessions)
    (hins : ∀ sid, c.sessionId = some sid →
      (c.sessions.find? (fun s => s.id == sid)).isNone = true →
      sid ∉ a.sessions.map (fun s => s.id)) :
    idsNodup (archiveFrom c a now).sessions := by
  unfold archiveFrom
  cases hsid : c.sessionId with
  | none => exact h
  | some sid =>
    dsimp only
    split_ifs with h0 h1 h2
    · exact h
    · rw [idsNodup, List.map_cons, List.nodup_cons]
      exact ⟨hins sid hsid h2, h⟩
    · exact h
    · exact h

/-- Archiving never touches the persisted-write history. -/
theorem archiveFrom_storedWrites (c a : AppState) (now : String) :
    (archiveFrom c a now).storedWrites = a.storedWrites := by
  unfold archiveFrom
  cases hsid : c.sessionId with
  | none => rfl
  | some sid =>
    dsimp only
    split_ifs <;> rfl

/-- Every catalog entry after archiving was already present, or is the
closure's current session — then non-blank, with a non-empty closure
transcript and missed by the closure's `find?` check. -/
theorem archiveFrom_mem {c a : AppState} {now : String} {e : SessionSummary}
    (he : e ∈ (archiveFrom c a now).sessions) :
    e ∈ a.sessions ∨
      (c.sessionId = some e.id ∧ e.id ≠ "" ∧ 0 < (c.sessionMessages e.id).length ∧
        (c.sessions.find? (fun s => s.id == e.id)).isNone = true) := by
  unfold archiveFrom at he
  cases hsid : c.sessionId with
  | none =>
    rw [hsid] at he
    exact Or.inl he
  | some sid =>
    rw [hsid] at he
    dsimp only at he
    split_ifs at he with h0 h1 h2
    · exact Or.inl he
    · rcases List.mem_cons.1 he with rfl | he2
      · exact Or.inr ⟨rfl, h0, h1, h2⟩
      · exact Or.inl he2
    · exact Or.inl he
    · exact Or.inl he

/-- The persistence effect leaves the in-memory catalog unchanged. -/
theorem persistSessions_sessions (a : AppState) :
    (persistSessions a).sessions = a.sessions := by
  unfold persistSessions
  dsimp only
  split_ifs <;> rfl

/-- Any property of all persisted writes survives the persistence effect
provided the filtered catalog satisfies it. -/
theorem persistSessions_storedWrites {a : AppState} {P : List SessionSummary → Prop}
    (hw : ∀ w ∈ a.storedWrites, P w)
    (hfilter : P (a.sessions.filter (fun s => 0 < s.messageCount))) :
    ∀ w ∈ (persistSessions a).storedWrites, P w := by
  unfold persistSessions
  dsimp only
  split_ifs with h1 h2
  · intro w hw2
    rcases List.mem_cons.1 hw2 with rfl | hw3
    · exact hfilter
    · exact hw w hw3
  · exact hw
  · exact hw

/-- Deletion removes every catalog entry carrying the deleted id, except
in the stale-closure re-archive case: the exception is excluded here by
requiring that, when the deleted session is current, its id is blank, its
pre-delete transcript is empty, or it is already archived. -/
theorem delete_removes_id_of (a : AppState) (delId newId now : String)
    (hc : a.sessionId = some delId →
      delId = "" ∨ (a.sessionMessages delId).length = 0 ∨
      (a.sessions.find? (fun s => s.id == delId)).isNone = false) :
    ∀ e ∈ (handleDeleteSession a delId newId now).sessions, e.id ≠ delId := by
  unfold handleDeleteSession
  dsimp only
  split_ifs with hcur
  · intro e he
    have he2 : e ∈ (archiveFrom a
        { a with
            sessions := a.sessions.filter (fun s => s.id ≠ delId)
            sessionMessages := fun k => if k = delId then [] else a.sessionMessages k }
        now).sessions := he
    rcases archiveFrom_mem he2 with hin | ⟨hid, hne, hlen, hfind⟩
    · simp only [List.mem_filter, decide_eq_true_eq] at hin
      exact hin.2
    · rw [hcur] at hid
      injection hid with hid'
      subst hid'
      rcases hc hcur with hblank | hzero | hfound
      · exact absurd hblank hne
      · exact absurd hzero (by omega)
      · exact absurd (hfind.symm.trans hfound) (by simp)
  · intro e he
    simp only [List.mem_filter, decide_eq_true_eq] at he
    exact he.2

/-- Deletion keeps catalog ids distinct even when the stale-closure
re-archive fires: the re-inserted id was just filtered out of the live
catalog. -/
theorem handleDeleteSession_idsNodup {a : AppState} (h : idsNodup a.sessions)
    (delId newId now : String) :
    idsNodup (handleDeleteSession a delId newId now).sessions := by
  unfold handleDeleteSession
  dsimp only
  split_ifs with hcur
  · refine archiveFrom_idsNodup now (idsNodup_filter _ h) ?_
    intro sid hsid hfind
    rw [hcur] at hsid
    injection hsid with hsid'
    subst hsid'
    intro hmem
    rcases List.mem_map.1 hmem with ⟨x, hx, hxid⟩
    simp only [List.mem_filter, decide_eq_true_eq] at hx
    exact hx.2 (by simpa using hxid)
  · exact idsNodup_filter _ h

/-- Creating a new session never touches the persisted-write history. -/
theorem handleNewSession_storedWrites (a : AppState) (newId now : String) :
    (handleNewSession a newId now).storedWrites = a.storedWrites :=
  archiveFrom_storedWrites a a now

/-- Deleting a session never touches the persisted-write history. -/
theorem handleDeleteSession_storedWrites (a : AppState) (delId newId now : String) :
    (handleDeleteSession a delId newId now).storedWrites = a.storedWrites := by
  unfold handleDeleteSession
  dsimp only
  split_ifs with hcur
  · exact archiveFrom_storedWrites _ _ now
  · rfl

/-- C8: in every reachable state the catalog contains no zero-message
session, and every catalog blob the persistence effect writes consists of
entries with at least one message — archiving (also the stale-closure
re-archive inside a delete) is guarded by a non-empty closure transcript
whose length becomes the entry's `messageCount`, the mount-time load and
the persistence effect both filter on a positive message count, and the
remaining operations leave the catalog untouched. -/
theorem catalog_entries_nonempty (raw : List SessionSummary) (a : AppState)
    (h : ReachableFrom raw a) :
    catalogOk a.sessions ∧ ∀ w ∈ a.storedWrites, catalogOk w := by
  induction h with
  | init saved store0 =>
    refine ⟨catalogOk_filterCount raw, ?_⟩
    intro w hw
    simp at hw
  | newSession newId now hr ih =>
    refine ⟨?_, ?_⟩
    · rw [persistSessions_sessions]
      exact archiveFrom_catalogOk ih.1 now
    · refine persistSessions_storedWrites ?_ (catalogOk_filterCount _)
      rw [handleNewSession_storedWrites]
      exact ih.2
  | loadSession loadId hr ih => exact ih
  | deleteSession delId newId now hr ih =>
    refine ⟨?_, ?_⟩
    · rw [persistSessions_sessions]
      unfold handleDeleteSession
      dsimp only
      split_ifs with hcur
      · exact archiveFrom_catalogOk (catalogOk_filter _ ih.1) now
      · exact catalogOk_filter _ ih.1
    · refine persistSessions_storedWrites ?_ (catalogOk_filterCount _)
      rw [handleDeleteSession_storedWrites]
      exact ih.2
  | updateMessages msgs hr ih => exact ih
  | turnDispatch input hr ih => exact ih
  | turnResolve p answer hr ih => exact ih

/-- Witness for C8: a run that loads session `"A"`, appends a user
message, and archives it via a new-session action. -/
theorem catalog_entries_nonempty_witness :
    catalogOk (persistSessions (handleNewSession
      (updateSessionMessages
        (handleLoadSession ⟨none, fun _ => [], [], []⟩ "A")
        [⟨Role.user, "hi"⟩])
      "B" "t")).sessions ∧
    ∀ w ∈ (persistSessions (handleNewSession
      (updateSessionMessages
        (handleLoadSession ⟨none, fun _ => [], [], []⟩ "A")
        [⟨Role.user, "hi"⟩])
      "B" "t")).storedWrites, catalogOk w :=
  catalog_entries_nonempty [] _
    ((((ReachableFrom.init none (fun _ => [])).loadSession "A").updateMessages
        [⟨Role.user, "hi"⟩]).newSession "B" "t")

/-- C10 counterexample: deletion does not remove every catalog entry with
the deleted id — deleting the current, not-yet-archived, non-empty
session `"A"` leaves the reachable post-delete catalog with an entry of
id `"A"`: the nested `handleNewSession`, reading the stale pre-delete
render closure, re-archives the session after the filter removed it. -/
theorem delete_current_rearchives_counterexample :
    ReachableFrom [] deleteRunPost ∧
    deleteRunPre.sessionId = some "A" ∧
    deleteRunPre.sessions = [] ∧
    deleteRunPost.sessions.map (fun s => s.id) = ["A"] ∧
    deleteRunPost.sessions.map (fun s => s.messageCount) = [1] :=
  ⟨(((ReachableFrom.init none (fun _ => [])).loadSession "A").updateMessages
      [⟨Role.user, "hi"⟩]).deleteSession "A" "N" "t",
   rfl, rfl, by decide, by decide⟩

/-- C10 amended: from a mount whose stored catalog has distinct ids,
every reachable catalog keeps its session ids pairwise distinct, and so
does the result of any deletion — archiving checks `find?` before
inserting and never creates a duplicate. Deletion removes every entry
carrying the deleted id whenever the deleted session is not current, or
its id is blank, or its pre-delete transcript is empty, or it is already
archived; the one exception — a current, not-yet-archived session with a
non-empty transcript — is re-archived by the nested stale-closure
new-session call. -/
theorem catalog_ids_unique (raw : List SessionSummary) (a : AppState)
    (hraw : idsNodup raw) (h : ReachableFrom raw a) :
    idsNodup a.sessions ∧
    (∀ delId newId now, idsNodup (handleDeleteSession a delId newId now).sessions) ∧
    (∀ delId newId now,
      (a.sessionId = some delId →
        delId = "" ∨ (a.sessionMessages delId).length = 0 ∨
        (a.sessions.find? (fun s => s.id == delId)).isNone = false) →
      ∀ e ∈ (handleDeleteSession a delId newId now).sessions, e.id ≠ delId) := by
  have main : idsNodup a.sessions := by
    induction h with
    | init saved store0 => exact idsNodup_filter _ hraw
    | newSession newId now hr ih =>
      rw [persistSessions_sessions]
      exact archiveFrom_idsNodup now ih (fun sid hsid hfind => find_none_not_mem hfind)
    | loadSession loadId hr ih => exact ih
    | deleteSession delId newId now hr ih =>
      rw [persistSessions_sessions]
      exact handleDeleteSession_idsNodup ih delId newId now
    | updateMessages msgs hr ih => exact ih
    | turnDispatch input hr ih => exact ih
    | turnResolve p answer hr ih => exact ih
  exact ⟨main,
    fun delId newId now => handleDeleteSession_idsNodup main delId newId now,
    fun delId newId now hc => delete_removes_id_of a delId newId now hc⟩

/-- Witness for C10 amended at a mount with one stored session: ids stay
distinct, a deletion's result stays distinct, and deleting the non-current
id `"X"` removes it (here: the surviving entry's id differs). -/
theorem catalog_ids_unique_witness :
    idsNodup (⟨none, fun _ => [],
        ([⟨"A", "t", 1, "p"⟩] : List SessionSummary).filter (fun s => 0 < s.messageCount),
        []⟩ : AppState).sessions ∧
    idsNodup (handleDeleteSession ⟨none, fun _ => [],
        ([⟨"A", "t", 1, "p"⟩] : List SessionSummary).filter (fun s => 0 < s.messageCount),
        []⟩ "X" "N" "t2").sessions ∧
    (⟨"A", "t", 1, "p"⟩ : SessionSummary).id ≠ "X" :=
  ⟨(catalog_ids_unique [⟨"A", "t", 1, "p"⟩] _ (by simp [idsNodup])
      (ReachableFrom.init none (fun _ => []))).1,
   (catalog_ids_unique [⟨"A", "t", 1, "p"⟩] _ (by simp [idsNodup])
      (ReachableFrom.init none (fun _ => []))).2.1 "X" "N" "t2",
   (catalog_ids_unique [⟨"A", "t", 1, "p"⟩] _ (by simp [idsNodup])
      (ReachableFrom.init none (fun _ => []))).2.2 "X" "N" "t2"
      (fun hh => Or.inr (Or.inl rfl)) ⟨"A", "t", 1, "p"⟩ (by decide)⟩

end AITutor
